import Mathlib

/-!
# Verification of the CS330 SceneManager scene-state registry

Shallow embedding of `Project_Milestones/Final_Project/SceneManager.cpp`:
the texture registry (`CreateGLTexture`, `BindGLTextures`, `DestroyGLTextures`,
`FindTextureID`, `FindTextureSlot`), the material registry (`FindMaterial`,
`SetShaderMaterial`, `DefineObjectMaterials`), the transform composer
(`SetTransformations`), the per-draw shader setters (`SetShaderColor`,
`SetShaderTexture`, `SetTextureUVScale`) and the light setup
(`SetupSceneLights`).

GPU calls and shader-uniform writes are modelled as explicit event traces so
that "what was written" is a first-class value.  Floating-point values in the
source are modelled as real numbers.
-/

set_option autoImplicit false

namespace SceneManager

/-- One entry of `m_textureIDs`: a tag string and the OpenGL texture id
(`GLuint`), exactly the `TEXTURE_INFO { GLuint ID; std::string tag; }` pair
written by `CreateGLTexture`. -/
structure TextureEntry where
  tag : String
  id : Nat
deriving Repr, DecidableEq

/-- The texture-registry part of the `SceneManager` state: the sequence of
registered entries, in registration order.  `m_loadedTextures` is the length
of this list (the counter and the array prefix move in lockstep in the
source). -/
structure SceneState where
  textures : List TextureEntry
deriving Repr, DecidableEq

/-- `Modelled from the spec:` the texture-unit slot bound.  The array
`m_textureIDs[16]` is declared in `SceneManager.h`, which is not part of the
provided sources; the spec fixes the bound at 16 ("at most N entries, N =
number of texture units available, e.g. 16"), matching the source comments
"There are up to 16 slots" and "Up to 16 textures can be loaded per scene". -/
def textureSlotCapacity : Nat := 16

/-- A decoded image as returned by `stbi_load`: width, height and the
channel count the branch in `CreateGLTexture` inspects. -/
structure Image where
  width : Int
  height : Int
  channels : Int
deriving Repr, DecidableEq

/-- OpenGL calls issued by the texture registry, recorded as events. -/
inductive GLEvent where
  /-- `glGenTextures(1, &id)` yielding a fresh texture object id. -/
  | genTexture (id : Nat)
  /-- `glBindTexture(GL_TEXTURE_2D, id)`. -/
  | bindTexture (id : Nat)
  /-- `glActiveTexture(GL_TEXTURE0 + unit)`. -/
  | activeTexture (unit : Nat)
  /-- `glTexImage2D` upload with the given channel count. -/
  | texImage2D (channels : Int)
  /-- `glGenerateMipmap(GL_TEXTURE_2D)`. -/
  | generateMipmap
  /-- `glDeleteTextures(1, &id)` — the release call the teardown routine
  would need to issue; recorded so the absence of any release can be stated. -/
  | deleteTexture (id : Nat)
deriving Repr, DecidableEq

/-- `SceneManager::CreateGLTexture(filename, tag)`.  The file read
(`stbi_load`) is abstracted to its result, `loadResult`; `newID` is the id
`glGenTextures` yields.  Returns the `bool` result, the successor state, and
the GL calls issued.  Mirrors the source exactly: on decode failure nothing
happens and `false` is returned; on an unsupported channel count the function
returns `false` after the gen/bind/parameter calls, registering nothing; on
channels 3 or 4 the image is uploaded, mipmaps generated, the texture unbound,
and the entry appended at index `m_loadedTextures` with the counter
incremented. -/
def createGLTexture (st : SceneState) (loadResult : Option Image) (tag : String)
    (newID : Nat) : Bool × SceneState × List GLEvent :=
  match loadResult with
  | none => (false, st, [])
  | some image =>
    if image.channels = 3 ∨ image.channels = 4 then
      (true,
       { st with textures := st.textures ++ [⟨tag, newID⟩] },
       [GLEvent.genTexture newID, GLEvent.bindTexture newID,
        GLEvent.texImage2D image.channels, GLEvent.generateMipmap,
        GLEvent.bindTexture 0])
    else
      (false, st, [GLEvent.genTexture newID, GLEvent.bindTexture newID])

/-- The loop body of `BindGLTextures`: for each index `i` from `start`,
`glActiveTexture(GL_TEXTURE0 + i)` then `glBindTexture` of the entry's id. -/
def bindAux : List TextureEntry → Nat → List GLEvent
  | [], _ => []
  | e :: rest, i =>
      GLEvent.activeTexture i :: GLEvent.bindTexture e.id :: bindAux rest (i + 1)

/-- `SceneManager::BindGLTextures()`: binds every registered texture to the
texture unit equal to its slot index. -/
def bindGLTextures (st : SceneState) : List GLEvent :=
  bindAux st.textures 0

/-- The loop body of `DestroyGLTextures`: for each registered entry the source
executes `glGenTextures(1, &m_textureIDs[i].ID)` — it *reallocates* a fresh
texture object into the slot.  `fresh i` is the id the `i`-th gen call yields.
Returns the updated entry list and the GL calls issued. -/
def destroyAux : List TextureEntry → (Nat → Nat) → Nat → List TextureEntry × List GLEvent
  | [], _, _ => ([], [])
  | e :: rest, fresh, i =>
      let r := destroyAux rest fresh (i + 1)
      (⟨e.tag, fresh i⟩ :: r.1, GLEvent.genTexture (fresh i) :: r.2)

/-- `SceneManager::DestroyGLTextures()`. -/
def destroyGLTextures (st : SceneState) (fresh : Nat → Nat) : SceneState × List GLEvent :=
  let r := destroyAux st.textures fresh 0
  (⟨r.1⟩, r.2)

/-- `SceneManager::FindTextureID(tag)`: linear scan of `m_textureIDs` from
index 0 while not found; on a tag match (exact `std::string::compare == 0`)
the entry's id is returned, otherwise the initial value `-1` survives. -/
def findTextureID (st : SceneState) (tag : String) : Int :=
  match st.textures.find? (fun e => e.tag = tag) with
  | some e => (e.id : Int)
  | none => -1

/-- The scan of `FindTextureSlot`, carrying the running index. -/
def findSlotAux : List TextureEntry → String → Int → Int
  | [], _, _ => -1
  | e :: rest, tag, idx => if e.tag = tag then idx else findSlotAux rest tag (idx + 1)

/-- `SceneManager::FindTextureSlot(tag)`: same scan as `FindTextureID` but
returning the index of the first matching entry, `-1` when none matches. -/
def findTextureSlot (st : SceneState) (tag : String) : Int :=
  findSlotAux st.textures tag 0

/-- The value part of `OBJECT_MATERIAL` (diffuse colour, specular colour,
shininess), the fields `FindMaterial` copies into its out-parameter. -/
structure MaterialProps where
  diffuseR : ℝ
  diffuseG : ℝ
  diffuseB : ℝ
  specularR : ℝ
  specularG : ℝ
  specularB : ℝ
  shininess : ℝ

/-- A registered `OBJECT_MATERIAL`: tag plus properties. -/
structure ObjectMaterial where
  tag : String
  props : MaterialProps

/-- The scan loop of `FindMaterial`: on the first tag match the out-parameter
is overwritten with the entry's properties and the loop stops; if no entry
matches, the out-parameter keeps its incoming value.  Returns the final value
of the out-parameter together with whether a match was found (`bFound`). -/
def findMaterialScan : List ObjectMaterial → String → MaterialProps → Bool × MaterialProps
  | [], _, material => (false, material)
  | m :: rest, tag, material =>
      if m.tag = tag then (true, m.props) else findMaterialScan rest tag material

/-- `SceneManager::FindMaterial(tag, material)`.  The source returns `false`
only when `m_objectMaterials` is empty; otherwise it runs the scan and then
returns `true` unconditionally — the `bFound` flag is *not* returned, so a
miss on a non-empty registry still yields `true` with the out-parameter
untouched. -/
def findMaterial (mats : List ObjectMaterial) (tag : String)
    (material : MaterialProps) : Bool × MaterialProps :=
  if mats.length = 0 then
    (false, material)
  else
    (true, (findMaterialScan mats tag material).2)

/-- Values carried by a shader-uniform write (`ShaderManager` setters). -/
inductive UVal where
  | intV (v : Int)
  | samplerV (v : Int)
  | floatV (v : ℝ)
  | boolV (v : Bool)
  | vec2V (x y : ℝ)
  | vec3V (x y z : ℝ)
  | vec4V (x y z w : ℝ)
  | mat4V (m : Matrix (Fin 4) (Fin 4) ℝ)

/-- One shader-uniform write: uniform name and value. -/
structure UniformWrite where
  name : String
  val : UVal

/-- `SceneManager::SetShaderMaterial(materialTag)`.  When the registry is
non-empty the source calls `FindMaterial` with a default-constructed local
`OBJECT_MATERIAL` (its incoming field values are unspecified, abstracted here
as `localInit`) and, whenever `FindMaterial` reported `true`, writes the three
material uniforms from the out-parameter. -/
def setShaderMaterial (mats : List ObjectMaterial) (materialTag : String)
    (localInit : MaterialProps) : List UniformWrite :=
  if mats.length > 0 then
    let r := findMaterial mats materialTag localInit
    if r.1 = true then
      [⟨"material.diffuseColor", UVal.vec3V r.2.diffuseR r.2.diffuseG r.2.diffuseB⟩,
       ⟨"material.specularColor", UVal.vec3V r.2.specularR r.2.specularG r.2.specularB⟩,
       ⟨"material.shininess", UVal.floatV r.2.shininess⟩]
    else
      []
  else
    []

/-- `SceneManager::DefineObjectMaterials()`: the two materials the final
project registers, in push order. -/
def definedMaterials : List ObjectMaterial :=
  [⟨"wood", ⟨0.3, 0.2, 0.1, 0.1, 0.1, 0.1, 0.3⟩⟩,
   ⟨"plastic", ⟨0.3, 0.3, 0.4, 0.05, 0.05, 0.05, 0.02⟩⟩]

/-- A `glm::vec3` argument. -/
structure Vec3 where
  x : ℝ
  y : ℝ
  z : ℝ

/-- `glm::radians`: degrees to radians. -/
noncomputable def radians (degrees : ℝ) : ℝ := degrees * (Real.pi / 180)

/-- `glm::scale(s)`: the 4×4 scaling matrix. -/
noncomputable def scaleMat (s : Vec3) : Matrix (Fin 4) (Fin 4) ℝ :=
  !![s.x, 0, 0, 0; 0, s.y, 0, 0; 0, 0, s.z, 0; 0, 0, 0, 1]

/-- `glm::rotate(θ, vec3(1,0,0))`: rotation about the X axis by θ radians. -/
noncomputable def rotateXMat (θ : ℝ) : Matrix (Fin 4) (Fin 4) ℝ :=
  !![1, 0, 0, 0;
     0, Real.cos θ, -Real.sin θ, 0;
     0, Real.sin θ, Real.cos θ, 0;
     0, 0, 0, 1]

/-- `glm::rotate(θ, vec3(0,1,0))`: rotation about the Y axis by θ radians. -/
noncomputable def rotateYMat (θ : ℝ) : Matrix (Fin 4) (Fin 4) ℝ :=
  !![Real.cos θ, 0, Real.sin θ, 0;
     0, 1, 0, 0;
     -Real.sin θ, 0, Real.cos θ, 0;
     0, 0, 0, 1]

/-- `glm::rotate(θ, vec3(0,0,1))`: rotation about the Z axis by θ radians. -/
noncomputable def rotateZMat (θ : ℝ) : Matrix (Fin 4) (Fin 4) ℝ :=
  !![Real.cos θ, -Real.sin θ, 0, 0;
     Real.sin θ, Real.cos θ, 0, 0;
     0, 0, 1, 0;
     0, 0, 0, 1]

/-- `glm::translate(t)`: the 4×4 translation matrix. -/
noncomputable def translateMat (t : Vec3) : Matrix (Fin 4) (Fin 4) ℝ :=
  !![1, 0, 0, t.x; 0, 1, 0, t.y; 0, 0, 1, t.z; 0, 0, 0, 1]

/-- The model matrix `SetTransformations` computes:
`modelView = translation * rotationZ * rotationY * rotationX * scale`, each
rotation built from the degree argument converted by `glm::radians`. -/
noncomputable def setTransformationsMatrix (scaleXYZ : Vec3)
    (XrotationDegrees YrotationDegrees ZrotationDegrees : ℝ)
    (positionXYZ : Vec3) : Matrix (Fin 4) (Fin 4) ℝ :=
  translateMat positionXYZ *
    rotateZMat (radians ZrotationDegrees) *
    rotateYMat (radians YrotationDegrees) *
    rotateXMat (radians XrotationDegrees) *
    scaleMat scaleXYZ

/-- `SceneManager::SetTransformations(...)`: when the shader-manager pointer
is non-null, writes the composed model matrix to the `"model"` uniform;
otherwise performs no write.  `hasShader` is `m_pShaderManager != NULL`. -/
noncomputable def setTransformations (scaleXYZ : Vec3)
    (XrotationDegrees YrotationDegrees ZrotationDegrees : ℝ)
    (positionXYZ : Vec3) (hasShader : Bool) : List UniformWrite :=
  if hasShader then
    [⟨"model", UVal.mat4V (setTransformationsMatrix scaleXYZ
        XrotationDegrees YrotationDegrees ZrotationDegrees positionXYZ)⟩]
  else
    []

/-- `SceneManager::SetShaderColor(r, g, b, a)`: when the shader-manager
pointer is non-null, writes `bUseTexture := false` (via `setIntValue`) and the
colour; otherwise performs no write. -/
def setShaderColor (r g b a : ℝ) (hasShader : Bool) : List UniformWrite :=
  if hasShader then
    [⟨"bUseTexture", UVal.intV 0⟩, ⟨"objectColor", UVal.vec4V r g b a⟩]
  else
    []

/-- `SceneManager::SetShaderTexture(textureTag)`: when the shader-manager
pointer is non-null, writes `bUseTexture := true` and then the result of
`FindTextureSlot` (which is `-1` when the tag is unregistered) to the sampler
uniform `objectTexture`; otherwise performs no write. -/
def setShaderTexture (st : SceneState) (textureTag : String)
    (hasShader : Bool) : List UniformWrite :=
  if hasShader then
    [⟨"bUseTexture", UVal.intV 1⟩,
     ⟨"objectTexture", UVal.samplerV (findTextureSlot st textureTag)⟩]
  else
    []

/-- `SceneManager::SetTextureUVScale(u, v)`: when the shader-manager pointer
is non-null, writes the `UVscale` uniform; otherwise performs no write. -/
def setTextureUVScale (u v : ℝ) (hasShader : Bool) : List UniformWrite :=
  if hasShader then [⟨"UVscale", UVal.vec2V u v⟩] else []

/-- `SceneManager::SetupSceneLights()`: the uniform writes the source issues,
in program order — the lighting enable, the global ambient term, the
directional-light block, the spot-light block, and the four point-light
blocks, each block ending with its `bActive` flag. -/
noncomputable def setupSceneLights : List UniformWrite :=
  [⟨"bUseLighting", UVal.boolV true⟩,
   ⟨"ambientLight", UVal.vec3V 0.2 0.2 0.2⟩,
   ⟨"directionalLight.direction", UVal.vec3V (-0.3) (-1.0) (-0.5)⟩,
   ⟨"directionalLight.ambient", UVal.vec3V 0.2 0.2 0.2⟩,
   ⟨"directionalLight.diffuse", UVal.vec3V 0.8 0.8 0.8⟩,
   ⟨"directionalLight.specular", UVal.vec3V 1.0 1.0 1.0⟩,
   ⟨"directionalLight.bActive", UVal.boolV true⟩,
   ⟨"spotLight.position", UVal.vec3V 0.0 10.0 5.0⟩,
   ⟨"spotLight.direction", UVal.vec3V 0.0 (-1.0) 0.0⟩,
   ⟨"spotLight.ambient", UVal.vec3V 0.1 0.1 0.1⟩,
   ⟨"spotLight.diffuse", UVal.vec3V 1.0 0.9 0.8⟩,
   ⟨"spotLight.specular", UVal.vec3V 1.0 1.0 1.0⟩,
   ⟨"spotLight.cutOff", UVal.floatV (Real.cos (radians 10.0))⟩,
   ⟨"spotLight.outerCutOff", UVal.floatV (Real.cos (radians 30.0))⟩,
   ⟨"spotLight.constant", UVal.floatV 1.0⟩,
   ⟨"spotLight.linear", UVal.floatV 0.09⟩,
   ⟨"spotLight.quadratic", UVal.floatV 0.032⟩,
   ⟨"spotLight.bActive", UVal.boolV true⟩,
   ⟨"pointLights[0].position", UVal.vec3V (-11.0) 8.0 6.0⟩,
   ⟨"pointLights[0].ambient", UVal.vec3V 0.05 0.05 0.05⟩,
   ⟨"pointLights[0].diffuse", UVal.vec3V 0.8 0.8 0.8⟩,
   ⟨"pointLights[0].specular", UVal.vec3V 1.0 1.0 1.0⟩,
   ⟨"pointLights[0].constant", UVal.floatV 1.0⟩,
   ⟨"pointLights[0].linear", UVal.floatV 0.14⟩,
   ⟨"pointLights[0].quadratic", UVal.floatV 0.07⟩,
   ⟨"pointLights[0].bActive", UVal.boolV true⟩,
   ⟨"pointLights[1].position", UVal.vec3V (-6.0) 8.0 6.5⟩,
   ⟨"pointLights[1].ambient", UVal.vec3V 0.05 0.05 0.05⟩,
   ⟨"pointLights[1].diffuse", UVal.vec3V 0.8 0.8 0.8⟩,
   ⟨"pointLights[1].specular", UVal.vec3V 1.0 1.0 1.0⟩,
   ⟨"pointLights[1].constant", UVal.floatV 1.0⟩,
   ⟨"pointLights[1].linear", UVal.floatV 0.14⟩,
   ⟨"pointLights[1].quadratic", UVal.floatV 0.07⟩,
   ⟨"pointLights[1].bActive", UVal.boolV true⟩,
   ⟨"pointLights[2].position", UVal.vec3V 3.0 8.0 4.0⟩,
   ⟨"pointLights[2].ambient", UVal.vec3V 0.05 0.05 0.05⟩,
   ⟨"pointLights[2].diffuse", UVal.vec3V 0.8 0.8 0.8⟩,
   ⟨"pointLights[2].specular", UVal.vec3V 1.0 1.0 1.0⟩,
   ⟨"pointLights[2].constant", UVal.floatV 1.0⟩,
   ⟨"pointLights[2].linear", UVal.floatV 0.14⟩,
   ⟨"pointLights[2].quadratic", UVal.floatV 0.07⟩,
   ⟨"pointLights[2].bActive", UVal.boolV true⟩,
   ⟨"pointLights[3].position", UVal.vec3V 9.0 8.0 6.0⟩,
   ⟨"pointLights[3].ambient", UVal.vec3V 0.05 0.05 0.05⟩,
   ⟨"pointLights[3].diffuse", UVal.vec3V 0.8 0.8 0.8⟩,
   ⟨"pointLights[3].specular", UVal.vec3V 1.0 1.0 1.0⟩,
   ⟨"pointLights[3].constant", UVal.floatV 1.0⟩,
   ⟨"pointLights[3].linear", UVal.floatV 0.14⟩,
   ⟨"pointLights[3].quadratic", UVal.floatV 0.07⟩,
   ⟨"pointLights[3].bActive", UVal.boolV true⟩]

/-- The names of the uniforms `SetupSceneLights` writes, in order. -/
noncomputable def setupSceneLightsNames : List String :=
  setupSceneLights.map UniformWrite.name

/-- Recognizer for `glGenTextures` events. -/
def isGenTexture : GLEvent → Bool
  | GLEvent.genTexture _ => true
  | _ => false

/-- Recognizer for `glDeleteTextures` events. -/
def isDeleteTexture : GLEvent → Bool
  | GLEvent.deleteTexture _ => true
  | _ => false

/-- One step of the 17-registration sequence used to exercise the capacity
bound: register a 64×64 RGB image under tag `"texi"` with fresh id `i + 1`. -/
def regSeqStep (st : SceneState) (i : Nat) : SceneState :=
  (createGLTexture st (some ⟨64, 64, 3⟩) ("tex" ++ toString i) (i + 1)).2.1

/-- The registry state after 16 successful registrations. -/
def stAfter16 : SceneState := (List.range 16).foldl regSeqStep ⟨[]⟩

/-- Every event the teardown loop issues is a `glGenTextures` call. -/
theorem destroyAux_all_gen (l : List TextureEntry) (fresh : Nat → Nat) (i : Nat) :
    (destroyAux l fresh i).2.all isGenTexture = true := by
  induction l generalizing i with
  | nil => rfl
  | cons e rest ih => simp [destroyAux, isGenTexture, ih]

/-- The teardown loop issues no `glDeleteTextures` call. -/
theorem destroyAux_no_delete (l : List TextureEntry) (fresh : Nat → Nat) (i : Nat) :
    (destroyAux l fresh i).2.any isDeleteTexture = false := by
  induction l generalizing i with
  | nil => rfl
  | cons e rest ih => simp [destroyAux, isDeleteTexture, ih]

/-- C10: with a null shader-manager pointer, `SetTransformations`,
`SetShaderColor`, `SetShaderTexture` and `SetTextureUVScale` each perform no
uniform write, for every input. -/
theorem C10_null_shader_writes_nothing :
    ∀ (scaleXYZ : Vec3) (xr yr zr : ℝ) (positionXYZ : Vec3)
      (r g b a : ℝ) (st : SceneState) (tag : String) (u v : ℝ),
      setTransformations scaleXYZ xr yr zr positionXYZ false = [] ∧
      setShaderColor r g b a false = [] ∧
      setShaderTexture st tag false = [] ∧
      setTextureUVScale u v false = [] := by
  intro scaleXYZ xr yr zr positionXYZ r g b a st tag u v
  exact ⟨rfl, rfl, rfl, rfl⟩

/-- C6: an image whose channel count is neither 3 nor 4 makes
`CreateGLTexture` return `false` and leaves the registry state — count and
tag-to-slot mapping — exactly as it was. -/
theorem C6_unsupported_channels_no_slot
    (st : SceneState) (image : Image) (tag : String) (newID : Nat)
    (h3 : image.channels ≠ 3) (h4 : image.channels ≠ 4) :
    (createGLTexture st (some image) tag newID).1 = false ∧
    (createGLTexture st (some image) tag newID).2.1 = st := by
  simp [createGLTexture, h3, h4]

/-- Witness for C6 at a concrete 2-channel image. -/
theorem C6_unsupported_channels_no_slot_witness :
    (createGLTexture ⟨[]⟩ (some ⟨64, 64, 2⟩) "gray" 7).1 = false ∧
    (createGLTexture ⟨[]⟩ (some ⟨64, 64, 2⟩) "gray" 7).2.1 = ⟨[]⟩ :=
  C6_unsupported_channels_no_slot ⟨[]⟩ ⟨64, 64, 2⟩ "gray" 7 (by decide) (by decide)

/-- C1 (code bug): with the final project's registered materials and the
unregistered tag `"glass"`, `FindMaterial` reports `true` — not a not-found
indicator — leaving the out-parameter at its incoming (indeterminate) value,
and `SetShaderMaterial` consequently writes all three material uniforms from
that indeterminate local value instead of writing nothing. -/
theorem C1_material_miss_reports_found_and_writes :
    ∀ localInit : MaterialProps,
      (findMaterial definedMaterials "glass" localInit).1 = true ∧
      (findMaterial definedMaterials "glass" localInit).2 = localInit ∧
      setShaderMaterial definedMaterials "glass" localInit =
        [⟨"material.diffuseColor",
            UVal.vec3V localInit.diffuseR localInit.diffuseG localInit.diffuseB⟩,
         ⟨"material.specularColor",
            UVal.vec3V localInit.specularR localInit.specularG localInit.specularB⟩,
         ⟨"material.shininess", UVal.floatV localInit.shininess⟩] := by
  intro localInit
  exact ⟨rfl, rfl, rfl⟩

/-- C2 (code bug): after 16 successful registrations the registry is at the
16-slot capacity, yet the 17th registration of a valid RGB image is not
rejected: `CreateGLTexture` returns `true` and the entry count becomes 17,
exceeding `textureSlotCapacity` (in the source this is the out-of-bounds
write `m_textureIDs[16]`). -/
theorem C2_seventeenth_registration_not_rejected :
    stAfter16.textures.length = textureSlotCapacity ∧
    (createGLTexture stAfter16 (some ⟨64, 64, 3⟩) "tex16" 17).1 = true ∧
    (createGLTexture stAfter16 (some ⟨64, 64, 3⟩) "tex16" 17).2.1.textures.length
      = textureSlotCapacity + 1 := by
  exact ⟨rfl, rfl, rfl⟩

/-- C3 (code bug): `DestroyGLTextures` never issues a release: for every
registry state, every event in its GL trace is a `glGenTextures` allocation
and none is a `glDeleteTextures`; concretely, on a registry holding one
texture with handle 5 the routine merely overwrites the stored handle with a
freshly generated one (here 9) and handle 5 is never freed. -/
theorem C3_destroy_reallocates_instead_of_freeing :
    (∀ (st : SceneState) (fresh : Nat → Nat),
        (destroyGLTextures st fresh).2.all isGenTexture = true ∧
        (destroyGLTextures st fresh).2.any isDeleteTexture = false) ∧
    destroyGLTextures ⟨[⟨"table", 5⟩]⟩ (fun _ => 9) =
      (⟨[⟨"table", 9⟩]⟩, [GLEvent.genTexture 9]) := by
  refine ⟨fun st fresh => ⟨?_, ?_⟩, rfl⟩
  · exact destroyAux_all_gen st.textures fresh 0
  · exact destroyAux_no_delete st.textures fresh 0

/-- C4 counterexample: on an empty registry and the unregistered tag
`"office"`, `FindTextureSlot` misses (returns −1) but `SetShaderTexture`
does not leave the shader state untouched: it writes `bUseTexture := true`
and writes the sentinel −1 to the sampler uniform — two writes, not zero. -/
theorem C4_counterexample_miss_still_writes :
    findTextureSlot ⟨[]⟩ "office" = -1 ∧
    setShaderTexture ⟨[]⟩ "office" true =
      [⟨"bUseTexture", UVal.intV 1⟩, ⟨"objectTexture", UVal.samplerV (-1)⟩] ∧
    (setShaderTexture ⟨[]⟩ "office" true).length = 2 :=
  ⟨rfl, rfl, rfl⟩

/-- C4 (amended): a texture-tag lookup miss at draw time is never fatal, but
the shader state is not left at its prior value: `SetShaderTexture` sets the
use-texture flag to `true` and overwrites the sampler-index uniform with the
not-found sentinel −1. -/
theorem C4_miss_writes_flag_and_sentinel (st : SceneState) (tag : String)
    (h : findTextureSlot st tag = -1) :
    setShaderTexture st tag true =
      [⟨"bUseTexture", UVal.intV 1⟩, ⟨"objectTexture", UVal.samplerV (-1)⟩] := by
  simp [setShaderTexture, h]

/-- Witness for the amended C4 at a concrete one-entry registry. -/
theorem C4_miss_writes_flag_and_sentinel_witness :
    setShaderTexture ⟨[⟨"table", 3⟩]⟩ "granite" true =
      [⟨"bUseTexture", UVal.intV 1⟩, ⟨"objectTexture", UVal.samplerV (-1)⟩] :=
  C4_miss_writes_flag_and_sentinel ⟨[⟨"table", 3⟩]⟩ "granite" (by decide)

/-- When no entry's tag matches, the slot scan returns its initial −1. -/
theorem findSlotAux_of_no_match (l : List TextureEntry) (tag : String) (idx : Int)
    (h : ∀ e ∈ l, e.tag ≠ tag) : findSlotAux l tag idx = -1 := by
  induction l generalizing idx with
  | nil => rfl
  | cons e rest ih =>
      simp only [findSlotAux]
      rw [if_neg (h e (List.mem_cons_self _ _))]
      exact ih _ fun x hx => h x (List.mem_cons_of_mem _ hx)

/-- When the first match is at position `i`, the slot scan started at `idx`
returns `idx + i`. -/
theorem findSlotAux_of_first_match (l : List TextureEntry) (tag : String) :
    ∀ (idx : Int) (i : Nat) (h : i < l.length),
      (l.get ⟨i, h⟩).tag = tag →
      (∀ (j : Nat) (hj : j < i), (l.get ⟨j, lt_trans hj h⟩).tag ≠ tag) →
      findSlotAux l tag idx = idx + i := by
  induction l with
  | nil => intro idx i h; exact absurd h (by simp)
  | cons e rest ih =>
      intro idx i h hhit hmiss
      match i with
      | 0 =>
          simp only [List.get] at hhit
          simp [findSlotAux, hhit]
      | Nat.succ k =>
          have hne : e.tag ≠ tag := hmiss 0 (Nat.succ_pos k)
          simp only [List.get] at hhit
          have := ih (idx + 1) k (Nat.lt_of_succ_lt_succ h) hhit
            (fun j hj => hmiss (j + 1) (Nat.succ_lt_succ hj))
          simp only [findSlotAux]
          rw [if_neg hne, this]
          push_cast
          ring

/-- When the first match is at position `i`, `find?` returns that entry. -/
theorem find_first_match (l : List TextureEntry) (tag : String) :
    ∀ (i : Nat) (h : i < l.length),
      (l.get ⟨i, h⟩).tag = tag →
      (∀ (j : Nat) (hj : j < i), (l.get ⟨j, lt_trans hj h⟩).tag ≠ tag) →
      l.find? (fun e => e.tag = tag) = some (l.get ⟨i, h⟩) := by
  induction l with
  | nil => intro i h; exact absurd h (by simp)
  | cons e rest ih =>
      intro i h hhit hmiss
      match i with
      | 0 =>
          have h0 : e.tag = tag := hhit
          show List.find? (fun x => decide (x.tag = tag)) (e :: rest) = some e
          simp [List.find?_cons, h0]
      | Nat.succ k =>
          have hne : e.tag ≠ tag := hmiss 0 (Nat.succ_pos k)
          have step : List.find? (fun x : TextureEntry => decide (x.tag = tag)) (e :: rest)
              = List.find? (fun x => decide (x.tag = tag)) rest := by
            simp [List.find?_cons, hne]
          rw [step]
          exact ih k (Nat.lt_of_succ_lt_succ h) hhit
            (fun j hj => hmiss (j + 1) (Nat.succ_lt_succ hj))

/-- C7: the tag lookups scan in registration order with exact (hence
case-sensitive) string matching: when no entry's tag equals the queried tag
both `FindTextureSlot` and `FindTextureID` return the sentinel −1, and when
the first matching entry sits at position `i` they return `i` and that
entry's id respectively. -/
theorem C7_find_texture_scan_first_match_or_sentinel (st : SceneState) (tag : String) :
    ((∀ e ∈ st.textures, e.tag ≠ tag) →
        findTextureSlot st tag = -1 ∧ findTextureID st tag = -1) ∧
    (∀ (i : Nat) (h : i < st.textures.length),
        (st.textures.get ⟨i, h⟩).tag = tag →
        (∀ (j : Nat) (hj : j < i), (st.textures.get ⟨j, lt_trans hj h⟩).tag ≠ tag) →
        findTextureSlot st tag = i ∧
        findTextureID st tag = ((st.textures.get ⟨i, h⟩).id : Int)) := by
  constructor
  · intro hmiss
    refine ⟨findSlotAux_of_no_match st.textures tag 0 hmiss, ?_⟩
    have : st.textures.find? (fun e => e.tag = tag) = none := by
      simp only [List.find?_eq_none, decide_eq_true_eq]
      exact hmiss
    simp [findTextureID, this]
  · intro i h hhit hmiss
    constructor
    · have := findSlotAux_of_first_match st.textures tag 0 i h hhit hmiss
      simpa [findTextureSlot] using this
    · have := find_first_match st.textures tag i h hhit hmiss
      simp [findTextureID, this]

/-- Witness for C7: a registry holding `"Table"` then `"table"`; the query
`"table"` skips the differently-cased `"Table"` (case-sensitive match) and
hits position 1, returning slot 1 and id 5. -/
theorem C7_find_texture_scan_witness :
    findTextureSlot ⟨[⟨"Table", 3⟩, ⟨"table", 5⟩]⟩ "table" = 1 ∧
    findTextureID ⟨[⟨"Table", 3⟩, ⟨"table", 5⟩]⟩ "table" = 5 := by
  have h := (C7_find_texture_scan_first_match_or_sentinel
      ⟨[⟨"Table", 3⟩, ⟨"table", 5⟩]⟩ "table").2 1 (by decide) (by decide)
    (by intro j hj
        have hj0 : j = 0 := by omega
        subst hj0
        exact (by decide : ("Table" : String) ≠ "table"))
  exact h

/-- The tags `LoadSceneTextures` registers, in registration order. -/
def sceneTextureTags : List String :=
  ["mugbase", "flag", "table", "plank", "plastic", "office"]

/-- The registry state `LoadSceneTextures` produces: the six scene textures
registered through `CreateGLTexture` (each decoding to a valid RGB image,
with `glGenTextures` yielding ids 1..6), in source order. -/
def loadSceneTexturesState : SceneState :=
  sceneTextureTags.foldl
    (fun st tag =>
      (createGLTexture st (some ⟨512, 512, 3⟩) tag (st.textures.length + 1)).2.1)
    ⟨[]⟩

/-- The bind loop pairs the entry at offset `k` with texture unit `start+k`:
element `2k` of the trace activates unit `start+k` and element `2k+1` binds
that entry's texture id. -/
theorem bindAux_get (l : List TextureEntry) :
    ∀ (start k : Nat) (h : k < l.length),
      (bindAux l start).get? (2 * k) = some (GLEvent.activeTexture (start + k)) ∧
      (bindAux l start).get? (2 * k + 1) =
        some (GLEvent.bindTexture (l.get ⟨k, h⟩).id) := by
  induction l with
  | nil => intro start k h; exact absurd h (by simp)
  | cons e rest ih =>
      intro start k h
      match k with
      | 0 => simp [bindAux]
      | Nat.succ m =>
          have ihm := ih (start + 1) m (Nat.lt_of_succ_lt_succ h)
          have hs : start + 1 + m = start + (m + 1) := by ring
          constructor
          · have h2 : 2 * (m + 1) = 2 * m + 1 + 1 := by ring
            rw [h2]
            show (GLEvent.activeTexture start :: GLEvent.bindTexture e.id ::
                bindAux rest (start + 1)).get? (2 * m + 1 + 1) = _
            rw [List.get?_cons_succ, List.get?_cons_succ, ← hs]
            exact ihm.1
          · have h2 : 2 * (m + 1) + 1 = 2 * m + 1 + 1 + 1 := by ring
            rw [h2]
            show (GLEvent.activeTexture start :: GLEvent.bindTexture e.id ::
                bindAux rest (start + 1)).get? (2 * m + 1 + 1 + 1) = _
            rw [List.get?_cons_succ, List.get?_cons_succ]
            exact ihm.2

/-- C8: after registering the six scene textures, each tag resolves to its
distinct registration slot 0..5, `BindGLTextures` issues exactly the
activate/bind pairs mapping slot `i` to texture unit `i` for ids 1..6, and in
general the bind trace pairs every registered slot `i` with texture unit `i`. -/
theorem C8_six_textures_bind_slots :
    (findTextureSlot loadSceneTexturesState "mugbase" = 0 ∧
     findTextureSlot loadSceneTexturesState "flag" = 1 ∧
     findTextureSlot loadSceneTexturesState "table" = 2 ∧
     findTextureSlot loadSceneTexturesState "plank" = 3 ∧
     findTextureSlot loadSceneTexturesState "plastic" = 4 ∧
     findTextureSlot loadSceneTexturesState "office" = 5) ∧
    bindGLTextures loadSceneTexturesState =
      [GLEvent.activeTexture 0, GLEvent.bindTexture 1,
       GLEvent.activeTexture 1, GLEvent.bindTexture 2,
       GLEvent.activeTexture 2, GLEvent.bindTexture 3,
       GLEvent.activeTexture 3, GLEvent.bindTexture 4,
       GLEvent.activeTexture 4, GLEvent.bindTexture 5,
       GLEvent.activeTexture 5, GLEvent.bindTexture 6] ∧
    (∀ (st : SceneState) (i : Nat) (h : i < st.textures.length),
       (bindGLTextures st).get? (2 * i) = some (GLEvent.activeTexture i) ∧
       (bindGLTextures st).get? (2 * i + 1) =
         some (GLEvent.bindTexture (st.textures.get ⟨i, h⟩).id)) := by
  refine ⟨⟨rfl, rfl, rfl, rfl, rfl, rfl⟩, rfl, ?_⟩
  intro st i h
  simpa using bindAux_get st.textures 0 i h

/-- Witness for C8 at slot 2 of the six-texture scenario state. -/
theorem C8_six_textures_bind_slots_witness :
    (bindGLTextures loadSceneTexturesState).get? 4 = some (GLEvent.activeTexture 2) ∧
    (bindGLTextures loadSceneTexturesState).get? 5 = some (GLEvent.bindTexture 3) := by
  have h := C8_six_textures_bind_slots.2.2 loadSceneTexturesState 2 (by decide)
  exact h

/-- The full parameter set of the directional-light block, its active flag
included. -/
def directionalLightParamNames : List String :=
  ["directionalLight.direction", "directionalLight.ambient",
   "directionalLight.diffuse", "directionalLight.specular",
   "directionalLight.bActive"]

/-- The full parameter set of the spot-light block, its active flag
included. -/
def spotLightParamNames : List String :=
  ["spotLight.position", "spotLight.direction", "spotLight.ambient",
   "spotLight.diffuse", "spotLight.specular", "spotLight.cutOff",
   "spotLight.outerCutOff", "spotLight.constant", "spotLight.linear",
   "spotLight.quadratic", "spotLight.bActive"]

/-- The full parameter set of point-light block `i`, its active flag
included. -/
def pointLightParamNames (i : Nat) : List String :=
  let base := "pointLights[" ++ toString i ++ "]."
  [base ++ "position", base ++ "ambient", base ++ "diffuse",
   base ++ "specular", base ++ "constant", base ++ "linear",
   base ++ "quadratic", base ++ "bActive"]

/-- C9: the startup light configuration writes the full parameter set,
active flag included, of the directional-light block, the spot-light block
and each of the point-light blocks 0..3 — and only those four point-light
blocks: no `pointLights[4]` uniform appears, and each block's active flag is
written exactly once (the writes are unconditional, independent of any
light's active value). -/
theorem C9_lights_write_all_six_blocks :
    directionalLightParamNames.all (fun n => setupSceneLightsNames.contains n) = true ∧
    spotLightParamNames.all (fun n => setupSceneLightsNames.contains n) = true ∧
    ((List.range 4).all fun i =>
        (pointLightParamNames i).all (fun n => setupSceneLightsNames.contains n)) = true ∧
    setupSceneLightsNames.contains "pointLights[4].position" = false ∧
    setupSceneLightsNames.contains "pointLights[4].bActive" = false ∧
    setupSceneLightsNames.count "directionalLight.bActive" = 1 ∧
    setupSceneLightsNames.count "spotLight.bActive" = 1 ∧
    ((List.range 4).all fun i =>
        setupSceneLightsNames.count ("pointLights[" ++ toString i ++ "].bActive") == 1)
      = true := by
  exact ⟨rfl, rfl, rfl, rfl, rfl, rfl, rfl, rfl⟩

/-- `glm::radians 90 = π/2`. -/
theorem radians_90 : radians 90 = Real.pi / 2 := by unfold radians; ring

/-- `glm::radians 0 = 0`. -/
theorem radians_0 : radians 0 = 0 := by unfold radians; ring

/-- C5: `SetTransformations` writes the model matrix composed as
`Translation × RotationZ × RotationY × RotationX × Scale`, each axis angle
converted from degrees to radians; and concretely, the matrix composed from
scale (2,1,1), rotation (0,90,0) degrees and translation (5,0,0) maps the
homogeneous point (1,0,0,1) exactly to (5,0,−2,1). -/
theorem C5_transform_composition_order :
    (∀ (scaleXYZ : Vec3) (xr yr zr : ℝ) (positionXYZ : Vec3),
        setTransformations scaleXYZ xr yr zr positionXYZ true =
          [⟨"model", UVal.mat4V
              (translateMat positionXYZ * rotateZMat (radians zr) *
                rotateYMat (radians yr) * rotateXMat (radians xr) *
                scaleMat scaleXYZ)⟩]) ∧
    (setTransformationsMatrix ⟨2, 1, 1⟩ 0 90 0 ⟨5, 0, 0⟩).mulVec ![1, 0, 0, 1]
      = ![5, 0, -2, 1] := by
  refine ⟨fun scaleXYZ xr yr zr positionXYZ => rfl, ?_⟩
  unfold setTransformationsMatrix
  rw [radians_90, radians_0]
  rw [← Matrix.mulVec_mulVec, ← Matrix.mulVec_mulVec, ← Matrix.mulVec_mulVec,
      ← Matrix.mulVec_mulVec]
  funext i
  fin_cases i <;>
    simp [translateMat, rotateZMat, rotateYMat, rotateXMat, scaleMat,
      Real.cos_pi_div_two, Real.sin_pi_div_two,
      Matrix.mulVec, Matrix.dotProduct, Fin.sum_univ_four,
      Matrix.vecHead, Matrix.vecTail, Function.comp]

end SceneManager
